import Mathlib

/-!
Verification of the MyCastle desktop agent: the operation registry
(`app/desktop/operations/__init__.py`), the dispatch loop
(`src/desktop/agent.py`, `DesktopAgent._on_message` and the publish
helpers), the lifecycle (`DesktopAgent.stop`) and the shell operation
(`app/desktop/operations/shell.py`).

The embedding models Python values as `PyVal`, the registry dictionary as
an association list with Python-dict insertion semantics, a handler as a
function from a parameter value to `Except String PyVal` (an exception's
message or a result), and one `_on_message` callback invocation as a pure
function from the decoded inbound payload to the list of MQTT publishes it
performs plus a trace of the handler invocations it makes.
-/

namespace MyCastle

/-- A Python value, as far as the agent's dispatch path inspects values:
`None`, booleans, integers, strings, lists and string-keyed dictionaries. -/
inductive PyVal where
  | none
  | bool (b : Bool)
  | int (n : Int)
  | str (s : String)
  | list (xs : List PyVal)
  | dict (fields : List (String × PyVal))

/-- Python truthiness (`if not action:` etc.): `None`, `False`, `0`, empty
string, empty list and empty dict are falsy. -/
def PyVal.truthy : PyVal → Bool
  | .none => false
  | .bool b => b
  | .int n => n != 0
  | .str s => !s.isEmpty
  | .list xs => !xs.isEmpty
  | .dict fields => !fields.isEmpty

/-- The Python type name, used in `TypeError` / `AttributeError` messages. -/
def pyTypeName : PyVal → String
  | .none => "NoneType"
  | .bool _ => "bool"
  | .int _ => "int"
  | .str _ => "str"
  | .list _ => "list"
  | .dict _ => "dict"

/-- `d.get(k, default)` on the field list of a Python dict: the value of the
key if present, the default otherwise. -/
def dictGet (fields : List (String × PyVal)) (k : String) (dflt : PyVal) : PyVal :=
  match fields.find? (fun p => p.1 == k) with
  | some p => p.2
  | Option.none => dflt

/-- `v.get(k, default)` as the agent calls it on decoded JSON: succeeds on a
dict, raises `AttributeError` on any other value (e.g. `payload.get` when
`payload` decoded to `None` or a list). -/
def pyGetMethod (v : PyVal) (k : String) (dflt : PyVal) : Except String PyVal :=
  match v with
  | .dict fields => Except.ok (dictGet fields k dflt)
  | w => Except.error ("'" ++ pyTypeName w ++ "' object has no attribute 'get'")

/-- `request_id[:8]`, as evaluated by the pre-execution log line
`log.info(f"Executing: {action} (id: {request_id[:8]}...)")`: slicing works
on the sequence types (strings, lists) and raises `TypeError` on `None` and
the other decoded-JSON values. -/
def pySlice8 : PyVal → Except String PyVal
  | .str s => Except.ok (PyVal.str (s.take 8))
  | .list xs => Except.ok (PyVal.list (xs.take 8))
  | v => Except.error ("'" ++ pyTypeName v ++ "' object is not subscriptable")

/-- `str(v)` as used by f-string formatting of the unknown-action message. -/
def pyStr : PyVal → String
  | .none => "None"
  | .bool true => "True"
  | .bool false => "False"
  | .int n => toString n
  | .str s => s
  | .list _ => "<list>"
  | .dict _ => "<dict>"

/-- An operation handler: receives the parameter value, returns a result or
raises with a message (`app/desktop/operations/__init__.py`, the values of
`_operations`; sync and async handlers are uniform after `execute` awaits). -/
abbrev Handler : Type := PyVal → Except String PyVal

/-- The operation registry `_operations`: a Python dict from operation name
to handler, modelled as an association list whose key order is insertion
order (as in CPython dicts). -/
abbrev Registry : Type := List (String × Handler)

/-- `_operations[name] = fn` (the body of the `operation` decorator),
CPython dict assignment on the association list: if the key is present its
value is replaced in place (the entry keeps its position), otherwise the
new entry is appended at the end. -/
def regInsert : Registry → String → Handler → Registry
  | [], name, fn => [(name, fn)]
  | p :: rest, name, fn =>
      if p.1 == name then (name, fn) :: rest else p :: regInsert rest name fn

/-- `_operations.get(action)`: the registered handler, if the action is a
string naming one. A non-string action is never a key of the registry. -/
def regLookup (reg : Registry) (action : PyVal) : Option Handler :=
  match action with
  | .str s => (reg.find? (fun p => p.1 == s)).map (fun p => p.2)
  | _ => Option.none

/-- `list_operations()`: the sorted list of registered operation names. -/
def list_operations (reg : Registry) : List String :=
  (reg.map (fun p => p.1)).mergeSort (fun a b => a ≤ b)

/-- `execute(action, params)` of `app/desktop/operations/__init__.py`:
raises `ValueError("Unknown operation: {action}")` when the action has no
handler, otherwise calls the handler on `params or {}`. -/
def execute (reg : Registry) (action : PyVal) (params : PyVal) : Except String PyVal :=
  match regLookup reg action with
  | Option.none => Except.error ("Unknown operation: " ++ pyStr action)
  | some fn => fn (if params.truthy then params else PyVal.dict [])

/-- The topic strings of `config.py` (`TOPICS`). -/
def TOPIC_REQUEST : String := "mycastle/desktop/request"

def TOPIC_RESPONSE : String := "mycastle/desktop/response"

def TOPIC_STATUS : String := "mycastle/desktop/status"

/-- One MQTT publish performed by the agent: the topic, the envelope's
`type`, the deterministic fields of its `payload` (the generated `id` and
`timestamp` of the packet are nondeterministic and not modelled), and the
retain flag. -/
structure Publish where
  topic : String
  ptype : String
  payload : List (String × PyVal)
  retain : Bool

/-- `_publish_response(request_id, data)`: a `type: "response"` packet whose
payload carries `requestId` and `data`, published on the response topic,
not retained. -/
def publishResponse (request_id : PyVal) (data : PyVal) : Publish :=
  { topic := TOPIC_RESPONSE, ptype := "response",
    payload := [("requestId", request_id), ("data", data)], retain := false }

/-- `_publish_error(request_id, message)`: a `type: "error"` packet whose
payload carries `requestId` and `message`, published on the response topic,
not retained. -/
def publishError (request_id : PyVal) (message : String) : Publish :=
  { topic := TOPIC_RESPONSE, ptype := "error",
    payload := [("requestId", request_id), ("message", PyVal.str message)], retain := false }

/-- `_publish_status(status)`: a `type: "status"` packet whose payload
carries the status, the sorted operation list and the client id, published
on the status topic with `retain=True`. -/
def publishStatus (clientId : String) (reg : Registry) (status : String) : Publish :=
  { topic := TOPIC_STATUS, ptype := "status",
    payload := [("status", PyVal.str status),
                ("operations", PyVal.list ((list_operations reg).map PyVal.str)),
                ("clientId", PyVal.str clientId)],
    retain := true }

/-- Everything one `_on_message` invocation does that the claims observe:
the publishes it performs in order, the handler invocations it makes
(action name and the parameter value passed), and the exception, if any,
that escapes the callback uncaught. -/
structure Effects where
  published : List Publish
  handlerCalls : List (String × PyVal)
  uncaught : Option String

/-- The `try:` body of `_on_message` after `json.loads` succeeded on `data`:
extract `id`, `payload`, `action`, `params`; publish a missing-action error
when `action` is falsy; otherwise format the log line (which slices
`request_id`), run the operation and publish the response. A raised
exception is returned for the `except` clauses. -/
def tryBody (reg : Registry) (data : PyVal) : List Publish × List (String × PyVal) × Option String :=
  match pyGetMethod data "id" PyVal.none with
  | Except.error e => ([], [], some e)
  | Except.ok request_id =>
  match pyGetMethod data "payload" (PyVal.dict []) with
  | Except.error e => ([], [], some e)
  | Except.ok payload =>
  match pyGetMethod payload "action" PyVal.none with
  | Except.error e => ([], [], some e)
  | Except.ok action =>
  match pyGetMethod payload "params" (PyVal.dict []) with
  | Except.error e => ([], [], some e)
  | Except.ok params =>
  if !action.truthy then
    ([publishError request_id "Missing 'action' in payload"], [], Option.none)
  else
    match pySlice8 request_id with
    | Except.error e => ([], [], some e)
    | Except.ok _ =>
    match regLookup reg action with
    | Option.none => ([], [], some ("Unknown operation: " ++ pyStr action))
    | some fn =>
      let p := if params.truthy then params else PyVal.dict []
      match fn p with
      | Except.error e => ([], [(pyStr action, p)], some e)
      | Except.ok result => ([publishResponse request_id result], [(pyStr action, p)], Option.none)

/-- `DesktopAgent._on_message`: ignore foreign topics; a payload that does
not decode (`raw = none`, the `json.JSONDecodeError` branch) is only
logged; otherwise run the try body, and on an exception recover
`request_id = data.get("id")` and publish an error envelope only when that
recovered id is truthy. -/
def onMessage (reg : Registry) (topic : String) (raw : Option PyVal) : Effects :=
  if topic ≠ TOPIC_REQUEST then ⟨[], [], Option.none⟩
  else
    match raw with
    | Option.none => ⟨[], [], Option.none⟩
    | some data =>
      match tryBody reg data with
      | (pubs, calls, Option.none) => ⟨pubs, calls, Option.none⟩
      | (pubs, calls, some e) =>
        match pyGetMethod data "id" PyVal.none with
        | Except.error e2 => ⟨pubs, calls, some e2⟩
        | Except.ok recovered =>
          if recovered.truthy then ⟨pubs ++ [publishError recovered e], calls, Option.none⟩
          else ⟨pubs, calls, Option.none⟩

/-- The canonical decoded Request Envelope
`{id: rid, payload: {action: a, params: ps}}` of the data model. -/
def requestData (rid : PyVal) (action : PyVal) (params : PyVal) : PyVal :=
  PyVal.dict [("id", rid), ("payload", PyVal.dict [("action", action), ("params", params)])]

/-- The serialized dispatch of a sequence of inbound messages: the paho
network thread invokes `_on_message` for one message at a time, and the
callback (which blocks on `loop.run_until_complete`) returns only after the
reply for its message has been handed to `client.publish`; so the publishes
of a message sequence are the concatenation, in arrival order, of each
message's publishes. -/
def processAll (reg : Registry) (msgs : List (String × Option PyVal)) : List Publish :=
  match msgs with
  | [] => []
  | m :: rest => (onMessage reg m.1 m.2).published ++ processAll reg rest

/-- The agent state touched by `DesktopAgent.stop`: the `running` flag, the
paho network loop, the broker connection, and the private asyncio loop. -/
structure AgentState where
  running : Bool
  netLoopRunning : Bool
  connected : Bool
  asyncioLoopClosed : Bool

/-- One externally visible step of `DesktopAgent.stop`, in program order. -/
inductive StopEff where
  | publishEff (p : Publish)
  | sleepHalfSecond
  | clientLoopStop
  | clientDisconnect
  | asyncioLoopClose

/-- `DesktopAgent.stop`: unconditionally sets `running = False`, publishes
the retained `"offline"` status, sleeps half a second, stops the network
loop, disconnects, and closes the asyncio loop. The body has no guard on
the current state: every call performs every step. -/
def stop (clientId : String) (reg : Registry) (s : AgentState) : AgentState × List StopEff :=
  ({ s with running := false, netLoopRunning := false, connected := false,
            asyncioLoopClosed := true },
   [StopEff.publishEff (publishStatus clientId reg "offline"),
    StopEff.sleepHalfSecond, StopEff.clientLoopStop,
    StopEff.clientDisconnect, StopEff.asyncioLoopClose])

/-- What the spawned shell command would do on the host: how many seconds
it runs for, and its outputs when it finishes (the behavior parameter to
the `subprocess.run` model). -/
structure ShellBehavior where
  duration : Int
  out : String
  err : String
  returncode : Int

/-- `subprocess.run(command, shell=True, capture_output=True, text=True,
timeout=timeout)`: raises `subprocess.TimeoutExpired` when the process
outlives the timeout, otherwise completes with the process's outputs. -/
def subprocessRun (beh : ShellBehavior) (command : String) (timeout : Int) :
    Except String ShellBehavior :=
  if timeout < beh.duration then
    Except.error ("Command '" ++ command ++ "' timed out after " ++ toString timeout ++ " seconds")
  else Except.ok beh

/-- `min(timeout, 120)` as Python evaluates it on a decoded JSON value: an
integer compares (a bool is an integer: `True` is `1`), any other type
raises `TypeError`. -/
def pyMinInt (v : PyVal) (cap : Int) : Except String Int :=
  match v with
  | PyVal.int t => Except.ok (min t cap)
  | PyVal.bool b => Except.ok (min (if b then (1 : Int) else 0) cap)
  | w => Except.error ("'<' not supported between instances of '" ++ pyTypeName w ++ "' and 'int'")

/-- The timeout `run_command` hands to `subprocess.run`: the caller's
`params.get("timeout", SHELL_COMMAND_TIMEOUT)` capped by
`min(timeout, 120)`. -/
def appliedShellTimeout (shellTimeoutCfg : Int) (params : PyVal) : Except String Int :=
  match pyGetMethod params "timeout" (PyVal.int shellTimeoutCfg) with
  | Except.error e => Except.error e
  | Except.ok tv => pyMinInt tv 120

/-- `run_command(params)` of `app/desktop/operations/shell.py`: requires a
truthy `command`, caps the timeout at 120 seconds, runs the command (its
host behavior is the `beh` parameter), truncates both output streams to
`SHELL_MAX_OUTPUT_SIZE` and returns the result dict. `shellTimeoutCfg` and
`maxOutput` are the environment-supplied `SHELL_COMMAND_TIMEOUT` and
`SHELL_MAX_OUTPUT_SIZE` of `config.py`. -/
def run_command (beh : String → ShellBehavior) (shellTimeoutCfg : Int) (maxOutput : Nat)
    (params : PyVal) : Except String PyVal :=
  match pyGetMethod params "command" PyVal.none with
  | Except.error e => Except.error e
  | Except.ok cmd =>
  if !cmd.truthy then Except.error "command is required"
  else
    match appliedShellTimeout shellTimeoutCfg params with
    | Except.error e => Except.error e
    | Except.ok timeout =>
    match subprocessRun (beh (pyStr cmd)) (pyStr cmd) timeout with
    | Except.error e => Except.error e
    | Except.ok r =>
      Except.ok (PyVal.dict [("stdout", PyVal.str (r.out.take maxOutput)),
                             ("stderr", PyVal.str (r.err.take maxOutput)),
                             ("return_code", PyVal.int r.returncode)])

/-! ## Handlers used as concrete witnesses -/

/-- A stub `system_info` handler returning `{"hostname": "h1"}`
(the spec's concrete scenario A). -/
def stubSystemInfo : Handler :=
  fun _ => Except.ok (PyVal.dict [("hostname", PyVal.str "h1")])

/-- A second stub handler, distinguishable from `stubSystemInfo`. -/
def stubSystemInfo2 : Handler :=
  fun _ => Except.ok (PyVal.dict [("hostname", PyVal.str "h2")])

/-! ## Evaluation lemmas about one `_on_message` invocation -/

/-- A string other than the empty one has `isEmpty = false`. -/
theorem isEmpty_false_of_ne (a : String) (ha : a ≠ "") : a.isEmpty = false := by
  cases h : a.isEmpty
  · rfl
  · exact absurd ((String.isEmpty_iff a).mp h) ha

/-- A non-empty string is truthy. -/
theorem str_truthy_of_ne (a : String) (ha : a ≠ "") : PyVal.truthy (PyVal.str a) = true := by
  simp [PyVal.truthy, isEmpty_false_of_ne a ha]

/-- Dispatch of a decodable request whose action has a handler that
succeeds: the callback publishes exactly the one correlated response and
invokes the handler exactly once. -/
theorem onMessage_success (reg : Registry) (rid a : String) (ps res : PyVal) (fn : Handler)
    (ha : a ≠ "")
    (hfind : regLookup reg (PyVal.str a) = some fn)
    (hok : fn (if ps.truthy then ps else PyVal.dict []) = Except.ok res) :
    onMessage reg TOPIC_REQUEST (some (requestData (PyVal.str rid) (PyVal.str a) ps)) =
      ⟨[publishResponse (PyVal.str rid) res],
       [(a, if ps.truthy then ps else PyVal.dict [])], Option.none⟩ := by
  simp [onMessage, tryBody, requestData, pyGetMethod, dictGet, List.find?, pySlice8,
        str_truthy_of_ne a ha, hfind, hok, pyStr, TOPIC_REQUEST]

/-- Dispatch of a decodable request with a non-empty string id and an
unregistered action: the `ValueError` from `execute` is caught and turned
into exactly one error envelope carrying the request id and the
`Unknown operation:` message. -/
theorem onMessage_unknown_action (reg : Registry) (rid a : String) (ps : PyVal)
    (hrid : rid ≠ "") (ha : a ≠ "")
    (hnone : regLookup reg (PyVal.str a) = Option.none) :
    onMessage reg TOPIC_REQUEST (some (requestData (PyVal.str rid) (PyVal.str a) ps)) =
      ⟨[publishError (PyVal.str rid) ("Unknown operation: " ++ a)], [], Option.none⟩ := by
  simp [onMessage, tryBody, requestData, pyGetMethod, dictGet, List.find?, pySlice8,
        str_truthy_of_ne a ha, str_truthy_of_ne rid hrid, hnone, pyStr, TOPIC_REQUEST]

/-- Dispatch of a decodable request whose payload has no `action` key: the
missing-action error envelope is published (whatever the id value is) and
no handler runs. -/
theorem onMessage_missing_action (reg : Registry) (rid : PyVal) (pf : List (String × PyVal))
    (hf : pf.find? (fun p => p.1 == "action") = Option.none) :
    onMessage reg TOPIC_REQUEST (some (PyVal.dict [("id", rid), ("payload", PyVal.dict pf)])) =
      ⟨[publishError rid "Missing 'action' in payload"], [], Option.none⟩ := by
  simp [onMessage, tryBody, pyGetMethod, dictGet, List.find?, hf, PyVal.truthy, TOPIC_REQUEST]

/-- Dispatch of a decodable request with a truthy action but a null id:
the log line's `request_id[:8]` raises `TypeError` before `execute`, and
the `except` clause recovers a falsy id, so nothing is published and no
handler runs. -/
theorem onMessage_id_null (reg : Registry) (a : String) (ps : PyVal) (ha : a ≠ "") :
    onMessage reg TOPIC_REQUEST (some (requestData PyVal.none (PyVal.str a) ps)) =
      ⟨[], [], Option.none⟩ := by
  simp [onMessage, tryBody, requestData, pyGetMethod, dictGet, List.find?, pySlice8,
        PyVal.truthy, isEmpty_false_of_ne a ha, TOPIC_REQUEST, pyTypeName]

/-- As `onMessage_id_null`, with the top-level `id` field absent instead of
null: `data.get("id")` yields `None` either way. -/
theorem onMessage_id_absent (reg : Registry) (a : String) (ps : PyVal) (ha : a ≠ "") :
    onMessage reg TOPIC_REQUEST
        (some (PyVal.dict [("payload", PyVal.dict [("action", PyVal.str a), ("params", ps)])])) =
      ⟨[], [], Option.none⟩ := by
  simp [onMessage, tryBody, pyGetMethod, dictGet, List.find?, pySlice8,
        PyVal.truthy, isEmpty_false_of_ne a ha, TOPIC_REQUEST, pyTypeName]

/-! ## The claims -/

/-- C1: for every decodable Request Envelope with a string id whose action
names a registered handler that succeeds with result `res`, the agent
publishes exactly one envelope: a Response Envelope of type `"response"`
whose `payload.requestId` is the Request's id and whose `payload.data` is
`res`, and the handler is invoked exactly once. -/
theorem request_with_registered_action_gets_one_correlated_response
    (reg : Registry) (rid a : String) (ps res : PyVal) (fn : Handler)
    (ha : a ≠ "")
    (hfind : regLookup reg (PyVal.str a) = some fn)
    (hok : fn (if ps.truthy then ps else PyVal.dict []) = Except.ok res) :
    onMessage reg TOPIC_REQUEST (some (requestData (PyVal.str rid) (PyVal.str a) ps)) =
      ⟨[publishResponse (PyVal.str rid) res],
       [(a, if ps.truthy then ps else PyVal.dict [])], Option.none⟩ :=
  onMessage_success reg rid a ps res fn ha hfind hok

/-- C1 witness, the spec's concrete scenario A: request
`{id:"r1", payload:{action:"system_info", params:{}}}` against a registry
with a stub `system_info` handler returning `{"hostname":"h1"}` yields the
single response `{type:"response", payload:{requestId:"r1",
data:{"hostname":"h1"}}}`. -/
theorem scenarioA_system_info_response :
    onMessage [("system_info", stubSystemInfo)] TOPIC_REQUEST
        (some (requestData (PyVal.str "r1") (PyVal.str "system_info") (PyVal.dict []))) =
      ⟨[publishResponse (PyVal.str "r1") (PyVal.dict [("hostname", PyVal.str "h1")])],
       [("system_info", PyVal.dict [])], Option.none⟩ :=
  request_with_registered_action_gets_one_correlated_response
    [("system_info", stubSystemInfo)] "r1" "system_info" (PyVal.dict [])
    (PyVal.dict [("hostname", PyVal.str "h1")]) stubSystemInfo
    (by decide) rfl rfl

/-- C2 counterexample: the claim quantifies over every string id, but for
the empty string id (a string) and the unregistered action `"ghost"` the
agent publishes nothing at all: the `except` clause's
`if request_id:` guard is falsy on `""`, so the error envelope is
suppressed. -/
theorem unknown_action_empty_string_id_publishes_nothing :
    (onMessage [] TOPIC_REQUEST
        (some (requestData (PyVal.str "") (PyVal.str "ghost") (PyVal.dict [])))).published
      = [] := rfl

/-- C2 amended: for every decodable Request Envelope with a NON-EMPTY
string id whose action is a non-empty string absent from the registry,
dispatch publishes exactly one envelope, an Error Envelope (never a
Response Envelope) whose `payload.requestId` is the Request's id and whose
message is `"Unknown operation: "` followed by the action name. -/
theorem unknown_action_publishes_correlated_error
    (reg : Registry) (rid a : String) (ps : PyVal)
    (hrid : rid ≠ "") (ha : a ≠ "")
    (hnone : regLookup reg (PyVal.str a) = Option.none) :
    onMessage reg TOPIC_REQUEST (some (requestData (PyVal.str rid) (PyVal.str a) ps)) =
      ⟨[publishError (PyVal.str rid) ("Unknown operation: " ++ a)], [], Option.none⟩ :=
  onMessage_unknown_action reg rid a ps hrid ha hnone

/-- C2 witness, the spec's concrete scenario B: request
`{id:"r2", payload:{action:"does_not_exist"}}` against the empty registry
yields one error envelope with `payload.requestId == "r2"` and the message
naming `does_not_exist`. -/
theorem scenarioB_unknown_action_error :
    onMessage [] TOPIC_REQUEST
        (some (requestData (PyVal.str "r2") (PyVal.str "does_not_exist") (PyVal.dict []))) =
      ⟨[publishError (PyVal.str "r2") "Unknown operation: does_not_exist"], [], Option.none⟩ :=
  unknown_action_publishes_correlated_error [] "r2" "does_not_exist" (PyVal.dict [])
    (by decide) (by decide) rfl

/-- C3: an inbound payload on the request topic that does not decode (the
`json.JSONDecodeError` branch of `_on_message`) produces no publish of any
kind, no handler invocation and no escaping exception: the failure is only
logged. -/
theorem undecodable_payload_publishes_nothing (reg : Registry) :
    onMessage reg TOPIC_REQUEST Option.none = ⟨[], [], Option.none⟩ := rfl

/-- C4: a decodable Request Envelope whose payload has no `action` field is
not a decode failure: the agent publishes exactly one Error Envelope whose
`payload.requestId` is the Request's id and whose message says `action` is
missing, and invokes no handler. -/
theorem missing_action_publishes_correlated_error
    (reg : Registry) (rid : String) (pf : List (String × PyVal))
    (hf : pf.find? (fun p => p.1 == "action") = Option.none) :
    onMessage reg TOPIC_REQUEST
        (some (PyVal.dict [("id", PyVal.str rid), ("payload", PyVal.dict pf)])) =
      ⟨[publishError (PyVal.str rid) "Missing 'action' in payload"], [], Option.none⟩ :=
  onMessage_missing_action reg (PyVal.str rid) pf hf

/-- C4 witness: request `{id:"r9", payload:{}}` yields exactly the
missing-action error envelope correlated to `"r9"`, with no handler call. -/
theorem missing_action_witness :
    onMessage [] TOPIC_REQUEST
        (some (PyVal.dict [("id", PyVal.str "r9"), ("payload", PyVal.dict [])])) =
      ⟨[publishError (PyVal.str "r9") "Missing 'action' in payload"], [], Option.none⟩ :=
  missing_action_publishes_correlated_error [] "r9" [] rfl

/-- C10: a decodable Request Envelope with a registered non-empty action
whose top-level id is null, or absent entirely, produces no publish at all
and no handler invocation: the pre-execution log line's `request_id[:8]`
raises `TypeError` before `execute`, and the `except` clause's recovered
`data.get("id")` is `None`, which is falsy, so the error publish is
suppressed. -/
theorem missing_id_suppresses_reply_and_handler
    (reg : Registry) (a : String) (ps : PyVal) (fn : Handler)
    (_hfind : regLookup reg (PyVal.str a) = some fn) (ha : a ≠ "") :
    onMessage reg TOPIC_REQUEST (some (requestData PyVal.none (PyVal.str a) ps)) =
        ⟨[], [], Option.none⟩ ∧
    onMessage reg TOPIC_REQUEST
        (some (PyVal.dict [("payload", PyVal.dict [("action", PyVal.str a), ("params", ps)])])) =
        ⟨[], [], Option.none⟩ :=
  ⟨onMessage_id_null reg a ps ha, onMessage_id_absent reg a ps ha⟩

/-- C10 witness: an id-less request for the registered `system_info` action
publishes nothing and never calls the handler. -/
theorem missing_id_witness :
    onMessage [("system_info", stubSystemInfo)] TOPIC_REQUEST
        (some (requestData PyVal.none (PyVal.str "system_info") (PyVal.dict []))) =
        ⟨[], [], Option.none⟩ ∧
    onMessage [("system_info", stubSystemInfo)] TOPIC_REQUEST
        (some (PyVal.dict [("payload",
          PyVal.dict [("action", PyVal.str "system_info"), ("params", PyVal.dict [])])])) =
        ⟨[], [], Option.none⟩ :=
  missing_id_suppresses_reply_and_handler [("system_info", stubSystemInfo)] "system_info"
    (PyVal.dict []) stubSystemInfo rfl (by decide)

/-! ## Registry lemmas -/

/-- The key list of a registry, in insertion order. -/
def regKeys : Registry → List String
  | [] => []
  | p :: rest => p.1 :: regKeys rest

/-- Every key after `regInsert` is either an original key or the inserted
name. -/
theorem mem_regKeys_regInsert (reg : Registry) (n x : String) (fn : Handler)
    (hx : x ∈ regKeys (regInsert reg n fn)) :
    x ∈ regKeys reg ∨ x = n := by
  induction reg with
  | nil =>
    simp [regInsert, regKeys] at hx
    exact Or.inr hx
  | cons p rest ih =>
    by_cases h : p.1 == n
    · simp only [regInsert, h, if_true, regKeys] at hx
      rcases List.mem_cons.mp hx with hx | hx
      · exact Or.inr hx
      · exact Or.inl (List.mem_cons.mpr (Or.inr hx))
    · simp only [regInsert, h, if_false, Bool.false_eq_true, regKeys] at hx
      rcases List.mem_cons.mp hx with hx | hx
      · exact Or.inl (List.mem_cons.mpr (Or.inl hx))
      · rcases ih hx with h2 | h2
        · exact Or.inl (List.mem_cons.mpr (Or.inr h2))
        · exact Or.inr h2

/-- `regInsert` keeps the registry's keys duplicate-free. -/
theorem nodup_regKeys_regInsert (reg : Registry) (n : String) (fn : Handler)
    (h : (regKeys reg).Nodup) :
    (regKeys (regInsert reg n fn)).Nodup := by
  induction reg with
  | nil => simp [regInsert, regKeys]
  | cons p rest ih =>
    rw [regKeys, List.nodup_cons] at h
    by_cases hp : p.1 == n
    · have hpn : p.1 = n := by simpa using hp
      simp only [regInsert, hp, if_true, regKeys, List.nodup_cons]
      exact ⟨by rw [← hpn]; exact h.1, h.2⟩
    · have hpn : p.1 ≠ n := by simpa using hp
      simp only [regInsert, hp, if_false, Bool.false_eq_true, regKeys, List.nodup_cons]
      refine ⟨?_, ih h.2⟩
      intro hmem
      rcases mem_regKeys_regInsert rest n p.1 fn hmem with h2 | h2
      · exact h.1 h2
      · exact hpn h2

/-- Lookup after `regInsert` finds the just-inserted handler. -/
theorem regLookup_regInsert_self (reg : Registry) (n : String) (fn : Handler) :
    regLookup (regInsert reg n fn) (PyVal.str n) = some fn := by
  induction reg with
  | nil => simp [regInsert, regLookup, List.find?]
  | cons p rest ih =>
    by_cases h : p.1 == n
    · simp [regInsert, h, regLookup, List.find?]
    · simp only [regInsert, h, if_false, Bool.false_eq_true]
      simp only [regLookup, List.find?, h]
      simpa [regLookup] using ih

/-- After `regInsert` into a duplicate-free registry, the inserted name
keys exactly one entry. -/
theorem count_regKeys_regInsert (reg : Registry) (n : String) (fn : Handler)
    (h : (regKeys reg).Nodup) :
    (regKeys (regInsert reg n fn)).count n = 1 := by
  induction reg with
  | nil => simp [regInsert, regKeys]
  | cons p rest ih =>
    rw [regKeys, List.nodup_cons] at h
    by_cases hp : p.1 == n
    · have hpn : p.1 = n := by simpa using hp
      have h0 : (regKeys rest).count n = 0 :=
        List.count_eq_zero.mpr (by rw [← hpn]; exact h.1)
      simp [regInsert, hp, regKeys, List.count_cons, h0]
    · have hpn : p.1 ≠ n := by simpa using hp
      simp only [regInsert, hp, if_false, Bool.false_eq_true, regKeys]
      have hnp : (n == p.1) = false := by simp [Ne.symm hpn]
      simp [List.count_cons, hnp, ih h.2, hpn]

/-- C5: registering two handlers in sequence under the same name leaves a
registry (whose keys were duplicate-free, the dict invariant) with exactly
one entry for that name, and lookup returns the most recently registered
handler: last registration wins. -/
theorem reregistration_last_wins (reg : Registry) (n : String) (f g : Handler)
    (h : (regKeys reg).Nodup) :
    regLookup (regInsert (regInsert reg n f) n g) (PyVal.str n) = some g ∧
    (regKeys (regInsert (regInsert reg n f) n g)).count n = 1 :=
  ⟨regLookup_regInsert_self (regInsert reg n f) n g,
   count_regKeys_regInsert (regInsert reg n f) n g (nodup_regKeys_regInsert reg n f h)⟩

/-- C5 witness: registering `stubSystemInfo` then `stubSystemInfo2` under
`"system_info"` into the empty registry leaves one `"system_info"` entry
holding `stubSystemInfo2`. -/
theorem reregistration_witness :
    regLookup (regInsert (regInsert [] "system_info" stubSystemInfo) "system_info" stubSystemInfo2)
        (PyVal.str "system_info") = some stubSystemInfo2 ∧
    (regKeys (regInsert (regInsert [] "system_info" stubSystemInfo) "system_info"
        stubSystemInfo2)).count "system_info" = 1 :=
  reregistration_last_wins [] "system_info" stubSystemInfo stubSystemInfo2 (by simp [regKeys])

/-- C6: every published Status Envelope has the retained flag set, its
`payload.operations` field is exactly `list_operations` of the registry at
publish time, and that list is a sorted permutation of the registry's full
key set. -/
theorem status_operations_sorted_and_retained (cid st : String) (reg : Registry) :
    (publishStatus cid reg st).retain = true ∧
    dictGet (publishStatus cid reg st).payload "operations" PyVal.none
      = PyVal.list ((list_operations reg).map PyVal.str) ∧
    List.Sorted (fun a b : String => a ≤ b) (list_operations reg) ∧
    (list_operations reg).Perm (reg.map Prod.fst) := by
  refine ⟨rfl, by simp [publishStatus, dictGet, List.find?], ?_, ?_⟩
  · have h := @List.sorted_mergeSort String (fun a b => a ≤ b)
      (fun a b c hab hbc => by
        simp only [decide_eq_true_eq] at *
        exact le_trans hab hbc)
      (fun a b => by
        simp only [Bool.or_eq_true, decide_eq_true_eq]
        exact le_total a b)
      (reg.map (fun p => p.1))
    exact List.Pairwise.imp (fun hab => by simpa using hab) h
  · exact List.mergeSort_perm (reg.map (fun p => p.1)) _

/-- C7 (evidence of the code bug): `DesktopAgent.stop` has no
already-stopped guard, so called on the state a completed `stop` left
behind it performs the whole shutdown sequence again — another retained
`"offline"` status publish, the half-second sleep and the transport
teardown calls — instead of being a no-op. -/
theorem stop_after_stop_republishes :
    (stop "mycastle_desktop" []
        (stop "mycastle_desktop" [] ⟨true, true, true, false⟩).1).2 =
      [StopEff.publishEff (publishStatus "mycastle_desktop" [] "offline"),
       StopEff.sleepHalfSecond, StopEff.clientLoopStop,
       StopEff.clientDisconnect, StopEff.asyncioLoopClose] := rfl

/-- The timeout `run_command` applies is `min(requested, 120)`, hence never
above 120. -/
theorem appliedShellTimeout_le (cfg : Int) (params : PyVal) (t : Int)
    (h : appliedShellTimeout cfg params = Except.ok t) : t ≤ 120 := by
  unfold appliedShellTimeout at h
  cases hg : pyGetMethod params "timeout" (PyVal.int cfg) with
  | error e => rw [hg] at h; cases h
  | ok tv =>
    rw [hg] at h
    cases tv with
    | int n =>
      simp only [pyMinInt, Except.ok.injEq] at h
      exact h ▸ min_le_right n 120
    | bool b =>
      simp only [pyMinInt, Except.ok.injEq] at h
      exact h ▸ min_le_right _ 120
    | none => simp [pyMinInt] at h
    | str s => simp [pyMinInt] at h
    | list xs => simp [pyMinInt] at h
    | dict d => simp [pyMinInt] at h

/-- C8: whatever timeout the caller requests, the timeout actually handed
to the spawned shell process never exceeds 120 seconds; and a command that
would outlive the 120-second ceiling makes `run_command` fail (a
`TimeoutExpired` error) rather than complete. -/
theorem run_command_timeout_hard_capped
    (shellTimeoutCfg : Int) (params : PyVal) (t : Int)
    (h : appliedShellTimeout shellTimeoutCfg params = Except.ok t) :
    t ≤ 120 ∧
    ∀ (beh : String → ShellBehavior) (maxOutput : Nat),
      (∀ c, 120 < (beh c).duration) →
      ∀ r, run_command beh shellTimeoutCfg maxOutput params ≠ Except.ok r := by
  refine ⟨appliedShellTimeout_le shellTimeoutCfg params t h, ?_⟩
  intro beh maxOutput hslow r
  unfold run_command
  cases hc : pyGetMethod params "command" PyVal.none with
  | error e => simp
  | ok cmd =>
    by_cases htr : cmd.truthy
    · have hlt : t < (beh (pyStr cmd)).duration :=
        lt_of_le_of_lt (appliedShellTimeout_le shellTimeoutCfg params t h) (hslow (pyStr cmd))
      simp [htr, h, subprocessRun, hlt]
    · simp [htr]

/-- A host behavior on which every command runs for 200 seconds. -/
def slowShell : String → ShellBehavior := fun _ => ⟨200, "", "", 0⟩

/-- Parameters requesting a 999-second timeout. -/
def timeoutParams : PyVal :=
  PyVal.dict [("command", PyVal.str "sleep 1000"), ("timeout", PyVal.int 999)]

/-- C8 witness: with `SHELL_COMMAND_TIMEOUT = 30` and a request for a
999-second timeout, the applied timeout is exactly 120, and a 200-second
command cannot make `run_command` succeed. -/
theorem run_command_timeout_cap_witness :
    (120 : Int) ≤ 120 ∧
    ∀ r, run_command slowShell 30 65536 timeoutParams ≠ Except.ok r := by
  have h := run_command_timeout_hard_capped 30 timeoutParams 120 rfl
  exact ⟨h.1, h.2 slowShell 65536 (fun c => by simp only [slowShell]; decide)⟩

/-- One request of an inbound sequence, with the result its handler
produces. -/
structure ReqSpec where
  rid : String
  action : String
  params : PyVal
  result : PyVal

/-- The wire message of a `ReqSpec`: a decodable Request Envelope on the
request topic. -/
def reqMessage (q : ReqSpec) : String × Option PyVal :=
  (TOPIC_REQUEST, some (requestData (PyVal.str q.rid) (PyVal.str q.action) q.params))

/-- C9: over a single transport session the callback runs to completion,
reply included, before the next message is processed (`processAll`), so
the Response Envelopes of a sequence of successful requests are published
in exactly the order the triggering requests were received, each
correlated to its own request id. -/
theorem replies_published_in_arrival_order (reg : Registry) (qs : List ReqSpec)
    (hq : ∀ q ∈ qs, q.action ≠ "" ∧
          ∃ fn, regLookup reg (PyVal.str q.action) = some fn ∧
            fn (if q.params.truthy then q.params else PyVal.dict []) = Except.ok q.result) :
    processAll reg (qs.map reqMessage) =
      qs.map (fun q => publishResponse (PyVal.str q.rid) q.result) := by
  induction qs with
  | nil => rfl
  | cons q rest ih =>
    rcases hq q (List.mem_cons_self q rest) with ⟨ha, fn, hfind, hok⟩
    simp only [List.map_cons, processAll, reqMessage]
    rw [onMessage_success reg q.rid q.action q.params q.result fn ha hfind hok]
    simp [ih (fun r hr => hq r (List.mem_cons.mpr (Or.inr hr)))]

/-- A registry with two handlers, for the back-to-back scenario. -/
def regTwo : Registry := [("slow", stubSystemInfo), ("fast", stubSystemInfo2)]

/-- C9 witness, the spec's concrete scenario C: requests `r3` (slow
handler) then `r4` arriving back-to-back yield the response for `r3`
strictly before the response for `r4`. -/
theorem replies_order_witness :
    processAll regTwo
        ([⟨"r3", "slow", PyVal.dict [], PyVal.dict [("hostname", PyVal.str "h1")]⟩,
          ⟨"r4", "fast", PyVal.dict [], PyVal.dict [("hostname", PyVal.str "h2")]⟩].map
          reqMessage) =
      [publishResponse (PyVal.str "r3") (PyVal.dict [("hostname", PyVal.str "h1")]),
       publishResponse (PyVal.str "r4") (PyVal.dict [("hostname", PyVal.str "h2")])] :=
  replies_published_in_arrival_order regTwo _ (by
    intro q hq
    rcases List.mem_cons.mp hq with h | h
    · subst h; exact ⟨by decide, stubSystemInfo, rfl, rfl⟩
    · rcases List.mem_cons.mp h with h2 | h2
      · subst h2; exact ⟨by decide, stubSystemInfo2, rfl, rfl⟩
      · exact absurd h2 (List.not_mem_nil q))

end MyCastle
